import Mathlib

/-!
Verification of the scada_modbus_demo repository: a shallow embedding of the
polling client (src/client_poll.py) and the register simulator
(src/server_sim.py), together with theorems settling the spec's claims.

Python floats are modelled by exact rationals (`ℚ`).  Every float value that
occurs in the scenarios under verification (integer temperatures, timestamps,
powers of two up to the backoff cap 30, tenths) is exactly representable as a
binary double, so the rational model coincides with the Python semantics on
those inputs; where a literal such as `0.3` is not an exact double, the
deviation (< 2e-17 per unit) is absorbed by the `int` truncation on the
bounded integer ranges involved, as noted at the definition concerned.
Python's `int()` conversion truncates toward zero and is modelled by `pyInt`.
-/

namespace ScadaModbus

/-- Python `int()` on a float: truncation toward zero. -/
def pyInt (q : ℚ) : ℤ := if q < 0 then -⌊-q⌋ else ⌊q⌋

/-! ## Polling client: register decoding (src/client_poll.py, main, lines 101-107)

The client requests registers 0..9 and decodes them inline: it reads offsets
0 (device_id), 2 (power_w), 3 (voltage ×10), 4 (current ×100), 5 (temp ×10)
and 6 (soc ×10).  An out-of-range index raises IndexError in Python, which the
surrounding `except Exception` treats as a failed cycle; this is modelled by
`Option`, each register access being fallible exactly like the subscript. -/

structure TelemetrySample where
  device_id : ℕ
  power_w : ℕ
  voltage_v : ℚ
  current_a : ℚ
  temp_c : ℚ
  soc_pct : ℚ
deriving DecidableEq, Repr

/-- Inline decoding of the register block from `main` (client_poll.py:101-107):
`regs[0]`, `regs[2]`, `regs[3]/10.0`, `regs[4]/100.0`, `regs[5]/10.0`,
`regs[6]/10.0`, in source order. -/
def decodeRegisters (regs : List ℕ) : Option TelemetrySample := do
  let d : ℕ ← regs[0]?
  let p : ℕ ← regs[2]?
  let v : ℕ ← regs[3]?
  let c : ℕ ← regs[4]?
  let t : ℕ ← regs[5]?
  let s : ℕ ← regs[6]?
  pure { device_id := d, power_w := p, voltage_v := (v : ℚ) / 10,
         current_a := (c : ℚ) / 100, temp_c := (t : ℚ) / 10,
         soc_pct := (s : ℚ) / 10 }

/-! ## Polling client: alarm state machine (src/client_poll.py, lines 40-73) -/

inductive AlarmEvent where
  | raised
  | cleared
deriving DecidableEq, Repr

structure AlarmState where
  hi : ℚ
  lo : ℚ
  raise_after : ℚ
  clear_after : ℚ
  high_since : Option ℚ
  low_since : Option ℚ
  active : Bool
deriving DecidableEq, Repr

/-- `AlarmState.__init__` (client_poll.py:41-48): stores the four parameters
and starts with both timers unset and the alarm inactive.  The constructor
performs no validation of any kind. -/
def mkAlarmState (hi lo raise_after clear_after : ℚ) : AlarmState :=
  { hi := hi, lo := lo, raise_after := raise_after, clear_after := clear_after,
    high_since := none, low_since := none, active := false }

/-- The default-argument construction `AlarmState()` used by `main`
(client_poll.py:87): hi=60.0, lo=58.0, raise_after=5.0, clear_after=3.0. -/
def defaultAlarmState : AlarmState := mkAlarmState 60 58 5 3

/-- `AlarmState.update` (client_poll.py:50-73), returning the successor state
together with the emitted event (`None` modelled as `none`).  The Python
`self.low_since = ts if None` followed by the window test is the `getD ts`. -/
def update (s : AlarmState) (temp_c ts : ℚ) : AlarmState × Option AlarmEvent :=
  if s.active then
    if temp_c < s.lo then
      let ls := s.low_since.getD ts
      if s.clear_after ≤ ts - ls then
        ({ s with active := false, low_since := none }, some .cleared)
      else
        ({ s with low_since := some ls }, none)
    else
      ({ s with low_since := none }, none)
  else
    if s.hi < temp_c then
      let hs := s.high_since.getD ts
      if s.raise_after ≤ ts - hs then
        ({ s with active := true, high_since := none }, some .raised)
      else
        ({ s with high_since := some hs }, none)
    else
      ({ s with high_since := none }, none)

/-- Feed a list of (temperature, timestamp) samples through `update`,
collecting the event emitted at each step. -/
def alarmRun (s : AlarmState) : List (ℚ × ℚ) → AlarmState × List (Option AlarmEvent)
  | [] => (s, [])
  | (t, ts) :: rest =>
      let step := update s t ts
      let tail := alarmRun step.1 rest
      (tail.1, step.2 :: tail.2)

/-- The state reached after feeding a list of (temperature, timestamp) samples. -/
def alarmRunState (s : AlarmState) (inputs : List (ℚ × ℚ)) : AlarmState :=
  inputs.foldl (fun st p => (update st p.1 p.2).1) s

/-- The state after a raise with default thresholds: active, both timers
unset. -/
def activeDefault : AlarmState := { defaultAlarmState with active := true }

/-- States of the C3 scenario: a constant 61 degrees sampled at timestamps
0, 1, 2, ...; `c3state n` is the state after the samples at 0 .. n-1. -/
def c3state : ℕ → AlarmState
  | 0 => defaultAlarmState
  | n + 1 => (update (c3state n) 61 (n : ℚ)).1

/-- Event emitted by the C3 scenario at timestamp `n`. -/
def c3event (n : ℕ) : Option AlarmEvent := (update (c3state n) 61 (n : ℚ)).2

/-- Temperatures of the C4 scenario: 61 throughout except 59 at timestamp 4. -/
def c4temp (n : ℕ) : ℚ := if n = 4 then 59 else 61

/-- States of the C4 scenario; `c4state n` is the state after the samples at
timestamps 0 .. n-1. -/
def c4state : ℕ → AlarmState
  | 0 => defaultAlarmState
  | n + 1 => (update (c4state n) (c4temp n) (n : ℚ)).1

/-- Event emitted by the C4 scenario at timestamp `n`. -/
def c4event (n : ℕ) : Option AlarmEvent := (update (c4state n) (c4temp n) (n : ℚ)).2

/-- The C5 trace: the raise scenario through its `Raised` at t=5, continued
with 57 degrees at timestamps 5 through 8. -/
def c5trace : List (ℚ × ℚ) :=
  [(61, 0), (61, 1), (61, 2), (61, 3), (61, 4), (61, 5), (57, 5), (57, 6), (57, 7), (57, 8)]

/-! ## Polling client: backoff (src/client_poll.py, lines 143 and 157) -/

def MAX_BACKOFF : ℚ := 30

/-- One poll cycle's effect on the backoff delay: on success `backoff = 0.0`
(client_poll.py:143); on failure `backoff = 1.0 if backoff == 0.0 else
min(MAX_BACKOFF, backoff * 2.0)` (client_poll.py:157). -/
def backoffStep (b : ℚ) (ok : Bool) : ℚ :=
  if ok then 0 else if b = 0 then 1 else min MAX_BACKOFF (b * 2)

/-- Backoff delay after `n` consecutive failed cycles starting from the
initial `backoff = 0.0` (client_poll.py:86). -/
def backoffAfterFails : ℕ → ℚ
  | 0 => 0
  | n + 1 => backoffStep (backoffAfterFails n) false

/-! ## Simulator: the updater tick (src/server_sim.py, lines 60-101)

One iteration of the `updater` loop body, acting on the holding-register
block.  The random draws of the iteration are passed in explicitly:
`random.randint(-5, 5)` for power jitter, `random.randint(-15, 15)` for
voltage, `random.uniform(-0.5, 0.5)` for the temperature target and
`random.uniform(-0.2, 0.2)` for soc.  The theorems that depend on draw
ranges state them as hypotheses; the clamping bounds hold for arbitrary
draws.  `delta * 0.3` is modelled as `delta * (3/10)`: for the clamped
integer range `|delta| ≤ 50` the truncated value `int(delta * 0.3)` computed
with binary doubles agrees with the exact-rational truncation (the double
nearest `delta * 0.3` differs from `3*delta/10` by less than one ulp and
never crosses an integer in the other direction on that range).  Likewise
`temp * 0.8 + target * 0.2` is modelled with `4/5` and `1/5`. -/

structure SimRegs where
  device_id : ℤ
  status_bits : ℤ
  power_w : ℤ
  volt_x10 : ℤ
  curr_x100 : ℤ
  temp_x10 : ℤ
  soc_x10 : ℤ
  setpoint_w : ℤ
deriving DecidableEq, Repr

/-- One tick's random draws. -/
structure TickDraws where
  power_jitter : ℤ
  volt_jitter : ℤ
  temp_jitter : ℚ
  soc_jitter : ℚ
deriving Repr

/-- Initial register values from `make_context` (server_sim.py:43-51). -/
def simInitial : SimRegs :=
  { device_id := 1001, status_bits := 1, power_w := 1200, volt_x10 := 2300,
    curr_x100 := 500, temp_x10 := 550, soc_x10 := 700, setpoint_w := 1200 }

/-- One iteration of `updater` (server_sim.py:64-98) at simulated time `t`
with draws `d`. -/
def updaterTick (s : SimRegs) (t : ℚ) (d : TickDraws) : SimRegs :=
  let sp := s.setpoint_w
  let pw := s.power_w
  let delta := max (-50) (min 50 (sp - pw))
  let pw1 := if 10 < |delta| then pw + pyInt ((delta : ℚ) * (3 / 10)) else pw + d.power_jitter
  let pw2 := max 0 (min 5000 pw1)
  let v := 2300 + d.volt_jitter
  let current_a : ℚ := (pw2 : ℚ) / max 1 ((v : ℚ) / 10)
  let ia := pyInt (max 0 (min 2000 (current_a * 100)))
  let cycle := ⌊t / 10⌋ % 2
  let temp_target : ℚ := if cycle = 0 then 65 + d.temp_jitter else 40 + d.temp_jitter
  let temp : ℚ := (s.temp_x10 : ℚ) / 10
  let temp1 := temp * (4 / 5) + temp_target * (1 / 5)
  let soc : ℚ := (s.soc_x10 : ℚ) / 10 + d.soc_jitter
  let soc1 := min 100 (max 0 soc)
  { s with power_w := pw2, volt_x10 := v, curr_x100 := ia,
           temp_x10 := pyInt (temp1 * 10), soc_x10 := pyInt (soc1 * 10),
           status_bits := 1 }

/-- Iterate `updaterTick` over a list of (time, draws) pairs. -/
def runSim (s : SimRegs) (ticks : List (ℚ × TickDraws)) : SimRegs :=
  ticks.foldl (fun st p => updaterTick st p.1 p.2) s

/-- Amended power update, written from the corrected spec sentence: if the
gap between `setpoint_w` and `power_w` exceeds 10 W, `power_w` steps by 30 %
of the gap clamped to [-50, 50] (truncated toward zero, hence at most 15 W
per tick); otherwise it moves by the jitter draw; the result is clamped to
[0, 5000]. -/
def powerAmendedSpec (sp pw jitter : ℤ) : ℤ :=
  let gap := sp - pw
  let step := max (-50) (min 50 gap)
  max 0 (min 5000 (if 10 < |gap| then pw + pyInt ((step : ℚ) * (3 / 10)) else pw + jitter))

/-! ## Invariant of the alarm state (claim C10) -/

/-- At most one debounce timer is armed, and it is the one relevant to the
current state: active states carry no high timer, inactive states no low
timer. -/
def AlarmInv (s : AlarmState) : Prop :=
  (s.active = true → s.high_since = none) ∧ (s.active = false → s.low_since = none)

/-! ## Helper lemmas -/

theorem update_active_hot (ts : ℚ) :
    update activeDefault 61 ts = (activeDefault, none) := by
  have h1 : ¬ (61 : ℚ) < 58 := by norm_num
  simp [update, activeDefault, defaultAlarmState, mkAlarmState, h1]

theorem c3state_high (n : ℕ) : c3state (n + 6) = activeDefault := by
  induction n with
  | zero => norm_num [c3state, update, defaultAlarmState, mkAlarmState, activeDefault]
  | succ n ih =>
      have h : n + 1 + 6 = n + 6 + 1 := by omega
      rw [h, c3state, ih, update_active_hot]

theorem c4state_high (n : ℕ) : c4state (n + 11) = activeDefault := by
  induction n with
  | zero => norm_num [c4state, c4temp, update, defaultAlarmState, mkAlarmState, activeDefault]
  | succ n ih =>
      have h : n + 1 + 11 = n + 11 + 1 := by omega
      have ht : c4temp (n + 11) = 61 := if_neg (by omega)
      rw [h, c4state, ih, ht, update_active_hot]

theorem alarmInv_update (s : AlarmState) (t ts : ℚ) (h : AlarmInv s) :
    AlarmInv (update s t ts).1 := by
  obtain ⟨h1, h2⟩ := h
  cases hact : s.active <;>
    simp_all [update, AlarmInv] <;> split_ifs <;> simp_all

theorem one_le_two_pow (n : ℕ) : (1 : ℚ) ≤ 2 ^ n := by
  induction n with
  | zero => norm_num
  | succ k ih => rw [pow_succ]; nlinarith

theorem backoffStep_fail (b : ℚ) :
    backoffStep b false = if b = 0 then 1 else min 30 (b * 2) := by
  simp [backoffStep, MAX_BACKOFF]

theorem backoffAfterFails_closed (n : ℕ) :
    backoffAfterFails (n + 1) = min 30 (2 ^ n) := by
  induction n with
  | zero => norm_num [backoffAfterFails, backoffStep, MAX_BACKOFF]
  | succ k ih =>
      rw [backoffAfterFails, ih, backoffStep_fail]
      have h1 : (1 : ℚ) ≤ min 30 (2 ^ k) := le_min (by norm_num) (one_le_two_pow k)
      have h0 : min (30 : ℚ) (2 ^ k) ≠ 0 := by positivity
      split_ifs with hc
      · exact absurd hc h0
      · rcases le_total (30 : ℚ) (2 ^ k) with hk | hk
        · rw [min_eq_left hk]
          have hk1 : (30 : ℚ) ≤ 2 ^ (k + 1) := by rw [pow_succ]; nlinarith
          rw [min_eq_left hk1]
          norm_num
        · rw [min_eq_right hk, pow_succ]

theorem pyInt_nonneg {q : ℚ} (h : 0 ≤ q) : 0 ≤ pyInt q := by
  unfold pyInt
  rw [if_neg (not_lt.mpr h)]
  exact Int.floor_nonneg.mpr h

theorem pyInt_le_of_le {q : ℚ} {n : ℤ} (h0 : 0 ≤ q) (h : q ≤ (n : ℚ)) : pyInt q ≤ n := by
  unfold pyInt
  rw [if_neg (not_lt.mpr h0)]
  exact (Int.floor_mono h).trans (le_of_eq (Int.floor_intCast n))

theorem updaterTick_bounds (s : SimRegs) (t : ℚ) (d : TickDraws) :
    0 ≤ (updaterTick s t d).power_w ∧ (updaterTick s t d).power_w ≤ 5000
    ∧ 0 ≤ ((updaterTick s t d).soc_x10 : ℚ) / 10 ∧ ((updaterTick s t d).soc_x10 : ℚ) / 10 ≤ 100
    ∧ 0 ≤ ((updaterTick s t d).curr_x100 : ℚ) / 100 := by
  simp only [updaterTick]
  set soc : ℚ := (s.soc_x10 : ℚ) / 10 + d.soc_jitter with hsoc
  have hs0 : (0 : ℚ) ≤ min 100 (max 0 soc) * 10 :=
    mul_nonneg (le_min (by norm_num) (le_max_left 0 soc)) (by norm_num)
  have hs1 : min 100 (max 0 soc) * 10 ≤ (1000 : ℚ) := by
    have := min_le_left (100 : ℚ) (max 0 soc)
    nlinarith
  have hsocL : (0 : ℤ) ≤ pyInt (min 100 (max 0 soc) * 10) := pyInt_nonneg hs0
  have hsocU : pyInt (min 100 (max 0 soc) * 10) ≤ 1000 :=
    pyInt_le_of_le hs0 (by exact_mod_cast hs1)
  refine ⟨le_max_left 0 _, max_le (by norm_num) (min_le_left _ _), ?_, ?_, ?_⟩
  · have h2 : (0 : ℚ) ≤ ((pyInt (min 100 (max 0 soc) * 10) : ℤ) : ℚ) := by exact_mod_cast hsocL
    exact div_nonneg h2 (by norm_num)
  · have h2 : ((pyInt (min 100 (max 0 soc) * 10) : ℤ) : ℚ) ≤ 1000 := by exact_mod_cast hsocU
    linarith
  · exact div_nonneg (by exact_mod_cast pyInt_nonneg (le_max_left _ _)) (by norm_num)

/-! ## Claim theorems -/

/-- Claim C1 (amended): the inline decoding of `main` succeeds exactly when at
least 7 registers are supplied — the highest offset it reads is 6 — so it
also succeeds on every block of length at least 10; a shorter sequence fails
(IndexError, caught by the cycle's failure handler) and yields no sample. -/
theorem decode_length_amended (regs : List ℕ) :
    (decodeRegisters regs).isSome ↔ 7 ≤ regs.length := by
  rcases regs with _ | ⟨a, _ | ⟨b, _ | ⟨c, _ | ⟨d, _ | ⟨e, _ | ⟨f, _ | ⟨g, rest⟩⟩⟩⟩⟩⟩⟩ <;>
    simp [decodeRegisters]

/-- Claim C1 counterexample: a raw sequence of length 7 — fewer than the 10
registers the claim requires — decodes successfully to a sample. -/
theorem decode_length_counterexample :
    (decodeRegisters [1001, 1, 1200, 2300, 500, 550, 700]).isSome = true
    ∧ ([1001, 1, 1200, 2300, 500, 550, 700] : List ℕ).length < 10 := by
  constructor
  · simp [decodeRegisters]
  · norm_num

/-- Claim C2: starting from backoff 0, after `n ≥ 1` consecutive failed
cycles the delay is `min 30 (2 ^ (n-1))`, i.e. the sequence 1, 2, 4, 8, 16,
30, 30, ... capped at 30; and any successful cycle resets the delay to 0. -/
theorem backoff_sequence (n : ℕ) (b : ℚ) (h : 1 ≤ n) :
    backoffAfterFails n = min 30 (2 ^ (n - 1)) ∧ backoffStep b true = 0 := by
  constructor
  · obtain ⟨m, rfl⟩ : ∃ m, n = m + 1 := ⟨n - 1, by omega⟩
    simpa using backoffAfterFails_closed m
  · simp [backoffStep]

theorem backoff_sequence_witness :
    1 ≤ 6 ∧ (backoffAfterFails 6 = min 30 (2 ^ (6 - 1)) ∧ backoffStep 17 true = 0) :=
  ⟨by norm_num, backoff_sequence 6 17 (by norm_num)⟩

/-- Claim C3: with hi=60, lo=58, raise_after=5, clear_after=3 and a constant
temperature of 61 sampled at timestamps 0, 1, 2, ..., no event is emitted at
timestamps 0..4, exactly one Raised is emitted at timestamp 5, and no
further event is emitted at any later timestamp; from timestamp 6 on the
state remains Active. -/
theorem alarm_raise_scenario (n : ℕ) :
    c3event n = (if n = 5 then some AlarmEvent.raised else none)
    ∧ (c3state (n + 6)).active = true := by
  refine ⟨?_, by rw [c3state_high]; rfl⟩
  rcases Nat.lt_or_ge n 6 with h | h
  · interval_cases n <;>
      norm_num [c3event, c3state, update, defaultAlarmState, mkAlarmState]
  · obtain ⟨m, rfl⟩ : ∃ m, n = m + 6 := ⟨n - 6, by omega⟩
    unfold c3event
    rw [c3state_high, update_active_hot, if_neg (by omega)]

/-- Claim C4: with temperature 61 at timestamps 0..3, 59 at timestamp 4 and
61 again from timestamp 5 on, the high timer is discarded at timestamp 4
(the state after that sample carries no high timer), and the only Raised is
emitted at timestamp 10 — in particular none at timestamp 9. -/
theorem alarm_debounce_reset (n : ℕ) :
    c4event n = (if n = 10 then some AlarmEvent.raised else none)
    ∧ (c4state 5).high_since = none := by
  refine ⟨?_, by norm_num [c4state, c4temp, update, defaultAlarmState, mkAlarmState]⟩
  rcases Nat.lt_or_ge n 11 with h | h
  · interval_cases n <;>
      norm_num [c4event, c4state, c4temp, update, defaultAlarmState, mkAlarmState]
  · obtain ⟨m, rfl⟩ : ∃ m, n = m + 11 := ⟨n - 11, by omega⟩
    unfold c4event
    rw [c4state_high, show c4temp (m + 11) = 61 from if_neg (by omega),
      update_active_hot, if_neg (by omega)]

/-- Claim C5: continuing the raise scenario (Raised at timestamp 5), feeding
57 degrees at timestamps 5 through 8 emits exactly one Cleared, at
timestamp 8: the full event trace is five times none, Raised, three times
none, Cleared. -/
theorem alarm_clear_scenario :
    (alarmRun defaultAlarmState c5trace).2 =
      [none, none, none, none, none, some AlarmEvent.raised,
       none, none, none, some AlarmEvent.cleared] := by
  norm_num [alarmRun, c5trace, update, defaultAlarmState, mkAlarmState]

/-- Claim C6: the threshold comparisons are strict.  A sample exactly equal
to `hi` never starts or extends the high timer: when inactive it resets the
high timer to none and emits nothing, and when active it leaves the high
timer untouched.  Symmetrically a sample exactly equal to `lo` never starts
or extends the low timer: when active it resets the low timer to none and
emits nothing, and when inactive it leaves the low timer untouched. -/
theorem alarm_boundary_strict (s : AlarmState) (ts : ℚ) :
    (update s s.hi ts).1.high_since = (if s.active then s.high_since else none)
    ∧ (update s s.lo ts).1.low_since = (if s.active then none else s.low_since)
    ∧ (s.active = false → (update s s.hi ts).2 = none)
    ∧ (s.active = true → (update s s.lo ts).2 = none) := by
  have hhi : ¬ s.hi < s.hi := lt_irrefl _
  have hlo : ¬ s.lo < s.lo := lt_irrefl _
  cases hact : s.active <;>
    simp [update, hact, hhi, hlo] <;> split_ifs <;> simp

theorem alarm_boundary_strict_witness :
    (update activeDefault activeDefault.lo 0).1.low_since = none
    ∧ (update activeDefault activeDefault.lo 0).2 = none := by
  have h := alarm_boundary_strict activeDefault 0
  exact ⟨by simpa using h.2.1, h.2.2.2 rfl⟩

/-- Claim C7 counterexample: constructing the alarm state with lo=60 ≥ hi=58
is not rejected — `__init__` performs no validation: it produces the usual
inactive state, and `update` runs normally on it. -/
theorem alarm_config_counterexample :
    (mkAlarmState 58 60 5 3).hi ≤ (mkAlarmState 58 60 5 3).lo
    ∧ (mkAlarmState 58 60 5 3).active = false
    ∧ (update (mkAlarmState 58 60 5 3) 59 0).2 = none := by
  norm_num [mkAlarmState, update]

/-- Claim C7 (amended): construction with lo ≥ hi is accepted: the
constructor stores the parameters unvalidated and returns the ordinary
fresh state (inactive, no timers) — nothing fails at construction time. -/
theorem alarm_config_amended (hi lo ra ca : ℚ) (_h : hi ≤ lo) :
    mkAlarmState hi lo ra ca =
      { hi := hi, lo := lo, raise_after := ra, clear_after := ca,
        high_since := none, low_since := none, active := false } := rfl

theorem alarm_config_amended_witness :
    (58 : ℚ) ≤ 60 ∧ mkAlarmState 58 60 5 3 =
      { hi := 58, lo := 60, raise_after := 5, clear_after := 3,
        high_since := none, low_since := none, active := false } :=
  ⟨by norm_num, alarm_config_amended 58 60 5 3 (by norm_num)⟩

/-- Claim C8 counterexample: with setpoint 1200 and power 100 the gap is
1100 > 10, and 30 % of that gap is 330, so the claim predicts power
100 + 330 = 430; the code instead clamps the gap to 50 first and steps by
only 15, giving 115. -/
theorem power_step_counterexample :
    (updaterTick { simInitial with power_w := 100 } 0
        { power_jitter := 0, volt_jitter := 0, temp_jitter := 0, soc_jitter := 0 }).power_w = 115
    ∧ pyInt ((1100 : ℚ) * (3 / 10)) = 330
    ∧ (115 : ℤ) ≠ 100 + 330 := by
  refine ⟨?_, ?_, by norm_num⟩
  · norm_num [updaterTick, simInitial, pyInt]
  · norm_num [pyInt]

/-- Claim C8 (amended): on every tick, if the gap between `setpoint_w` and
`power_w` exceeds 10 W then `power_w` steps by 30 % — truncated toward
zero — of the gap clamped to [-50, 50] (hence by at most 15 W per tick);
otherwise it moves by the jitter draw; in either case the result is clamped
to [0, 5000]. -/
theorem power_step_amended (s : SimRegs) (t : ℚ) (d : TickDraws) :
    (updaterTick s t d).power_w = powerAmendedSpec s.setpoint_w s.power_w d.power_jitter := by
  have hcond : (10 < |s.setpoint_w - s.power_w|) ↔
      (10 < |max (-50) (min 50 (s.setpoint_w - s.power_w))|) := by
    rw [Int.abs_eq_natAbs, Int.abs_eq_natAbs]
    omega
  simp only [updaterTick, powerAmendedSpec, hcond]

/-- Claim C9: however many ticks are performed (at least one) and whatever
the random draws, the updater keeps `power_w` within [0, 5000], the stored
state of charge within [0 %, 100 %], and the stored current non-negative. -/
theorem sim_register_bounds (s : SimRegs) (ticks : List (ℚ × TickDraws)) (h : ticks ≠ []) :
    0 ≤ (runSim s ticks).power_w ∧ (runSim s ticks).power_w ≤ 5000
    ∧ 0 ≤ ((runSim s ticks).soc_x10 : ℚ) / 10 ∧ ((runSim s ticks).soc_x10 : ℚ) / 10 ≤ 100
    ∧ 0 ≤ ((runSim s ticks).curr_x100 : ℚ) / 100 := by
  rcases ticks with _ | ⟨p, rest⟩
  · exact absurd rfl h
  · clear h
    induction rest generalizing s p with
    | nil => exact updaterTick_bounds s p.1 p.2
    | cons q rest ih => exact ih (updaterTick s p.1 p.2) q

theorem sim_register_bounds_witness :
    ([((0 : ℚ), (⟨0, 0, 0, 0⟩ : TickDraws))] ≠ ([] : List (ℚ × TickDraws)))
    ∧ (0 ≤ (runSim simInitial [(0, ⟨0, 0, 0, 0⟩)]).power_w
      ∧ (runSim simInitial [(0, ⟨0, 0, 0, 0⟩)]).power_w ≤ 5000
      ∧ 0 ≤ ((runSim simInitial [(0, ⟨0, 0, 0, 0⟩)]).soc_x10 : ℚ) / 10
      ∧ ((runSim simInitial [(0, ⟨0, 0, 0, 0⟩)]).soc_x10 : ℚ) / 10 ≤ 100
      ∧ 0 ≤ ((runSim simInitial [(0, ⟨0, 0, 0, 0⟩)]).curr_x100 : ℚ) / 100) :=
  ⟨by simp, sim_register_bounds simInitial [(0, ⟨0, 0, 0, 0⟩)] (by simp)⟩

/-- Claim C10: starting from any freshly constructed alarm state, every
sequence of update calls preserves the invariant that an active state
carries no high timer and an inactive state no low timer — at most one
debounce timer is armed, always the one relevant to the current state. -/
theorem alarm_timer_invariant (hi lo ra ca : ℚ) (inputs : List (ℚ × ℚ)) :
    AlarmInv (alarmRunState (mkAlarmState hi lo ra ca) inputs) := by
  have step : ∀ (l : List (ℚ × ℚ)) (s : AlarmState),
      AlarmInv s → AlarmInv (alarmRunState s l) := by
    intro l
    induction l with
    | nil => intro s hs; exact hs
    | cons p rest ih =>
        intro s hs
        exact ih _ (alarmInv_update s p.1 p.2 hs)
  exact step inputs _ ⟨fun _ => rfl, fun _ => rfl⟩

end ScadaModbus
